import Mathlib

/-!
Verification of the deployment CLI in `cmd/erc20/main.go` (repository
devlongs/tokken).  The Go program is embedded shallowly: each Go function
becomes a Lean function on `Nat`/`Int`/`String`, machine-integer
conversions are made explicit, fallible operations return `Option`, and
the network is an explicit oracle argument.  Line numbers in the doc
comments refer to `src/cmd/erc20/main.go`.
-/

namespace Tokken

/-! ## Supply parsing (`parseSupply`, main.go lines 143-152) -/

/-- Value of a list of decimal digit characters, most significant first.
This is the number denoted by a digit string, as `big.Int.SetString`
computes it for base 10. -/
def digitsVal (l : List Char) : ℕ :=
  l.foldl (fun a c => 10 * a + (c.toNat - '0'.toNat)) 0

/-- The numeric value denoted by a decimal digit string. -/
def decValue (s : String) : ℕ := digitsVal s.data

/-- Model of Go `big.Int.SetString(s, 10)` (used at main.go line 145).
For base 10 the entire string must be an optional single leading `+` or
`-` sign followed by one or more decimal digits; underscores and prefixes
are only recognized for base 0.  Returns `none` exactly when Go's
`SetString` reports failure. -/
def setString10 (s : String) : Option ℤ :=
  match s.data with
  | [] => none
  | c :: rest =>
    if c = '+' then
      if rest ≠ [] ∧ rest.all Char.isDigit then some (digitsVal rest) else none
    else if c = '-' then
      if rest ≠ [] ∧ rest.all Char.isDigit then some (-(digitsVal rest : ℤ)) else none
    else
      if (c :: rest).all Char.isDigit then some (digitsVal (c :: rest)) else none

/-- Model of `parseSupply` (main.go lines 143-152): parses the supply string with
`big.Int.SetString(supply, 10)` and multiplies by `10^decimals` computed
by `big.Int.Exp` (exact arbitrary-precision arithmetic).  `decimals` is a
Go `uint8`, so callers pass a value in `[0, 255]`. -/
def parseSupply (supply : String) (decimals : ℕ) : Option ℤ :=
  match setString10 supply with
  | none => none
  | some v => some (v * 10 ^ decimals)

/-! ## Private-key handling (`createTransactor`, main.go lines 96-108) -/

/-- Hex digit recognizer used by Go `encoding/hex.DecodeString`. -/
def isHexDigitCh (c : Char) : Bool :=
  c.isDigit || ('a' ≤ c && c ≤ 'f') || ('A' ≤ c && c ≤ 'F')

/-- Numeric value of a hex digit character. -/
def hexDigitVal (c : Char) : ℕ :=
  if c.isDigit then c.toNat - '0'.toNat
  else if 'a' ≤ c && c ≤ 'f' then c.toNat - 'a'.toNat + 10
  else c.toNat - 'A'.toNat + 10

/-- Value of a list of hex digit characters, most significant first. -/
def hexVal (l : List Char) : ℕ := l.foldl (fun a c => 16 * a + hexDigitVal c) 0

/-- Order of the secp256k1 base point, the bound enforced by
go-ethereum's `crypto.toECDSA` on private-key scalars. -/
def secp256k1N : ℕ :=
  115792089237316195423570985008687907852837564279074904382605163141518161494337

/-- Model of go-ethereum `crypto.HexToECDSA` (called at main.go line 97):
decodes the string as hex (`hex.DecodeString`, so every character must be
a hex digit), requires exactly 32 bytes (64 hex characters, the strict
length check of `toECDSA`), and requires the scalar `d` to satisfy
`0 < d < N` for the secp256k1 order `N`.  Returns the scalar on success. -/
def hexToECDSA (s : String) : Option ℕ :=
  if s.length = 64 ∧ s.data.all isHexDigitCh then
    let d := hexVal s.data
    if 0 < d ∧ d < secp256k1N then some d else none
  else none

/-- Whether the string begins with the conventional `0x` marker. -/
def hasHexMarker (s : String) : Bool :=
  match s.data with
  | '0' :: 'x' :: _ => true
  | _ => false

/-- Model of Go `strings.TrimPrefix(s, "0x")` (main.go line 97): removes
one leading `0x` marker if present, otherwise returns the string
unchanged.  Note that it strips at most one occurrence. -/
def trimHexMarker (s : String) : String :=
  if hasHexMarker s then ⟨s.data.drop 2⟩ else s

/-! ## Gas price and nonce conversions (main.go lines 124, 127-129) -/

/-- Model of the gas price conversion at main.go line 128:
`big.NewInt(int64(*gasPriceGwei * 1e9))` multiplied by `1`.  The
gwei-denominated input is multiplied by `10^9` and truncated toward zero
(Go's float64-to-int64 conversion).  The caller's float input is modelled
by its exact rational value; `g.num * 10^9 / g.den` with truncating
division is exactly `trunc(g * 10^9)`.  Two deliberate modelling
limitations: the float64 rounding of the product `g * 1e9` is not
modelled (Go rounds `0.3 * 1e9` to exactly `3.0e8` and converts to
`300000000`, while the exact-rational truncation gives `299999999`), and
the result is unbounded where Go's float-to-int64 conversion is only
defined within the `int64` range.  The theorems that use this definition
either evaluate it at `5`, where the float computation is exact and
in range so model and source agree, or treat the converted value
symbolically. -/
def gweiToWei (g : ℚ) : ℤ :=
  let n := g.num * 10 ^ 9
  if 0 ≤ n then ((n.toNat / g.den : ℕ) : ℤ) else -(((-n).toNat / g.den : ℕ) : ℤ)

/-- Go conversion `int64(n)` for a `uint64` value `n` (main.go line 124):
two's-complement reinterpretation, so values at or above `2^63` become
negative. -/
def int64ofUInt64 (n : ℕ) : ℤ :=
  if n < 2 ^ 63 then (n : ℤ) else (n : ℤ) - 2 ^ 64

/-! ## The transactor (`createTransactor`, main.go lines 96-141) -/

/-- The network responses consumed by `createTransactor`: the pending
nonce for the derived address (`PendingNonceAt`, a `uint64`), the chain
identifier (`ChainID`, a `*big.Int`), and the suggested gas price
(`SuggestGasPrice`, a `*big.Int`).  `none` models the call returning an
error. -/
structure NetCtx where
  pendingNonce : Option ℕ
  chainID : Option ℤ
  suggestedGasPrice : Option ℤ
  deriving DecidableEq

/-- The fields of the resulting `bind.TransactOpts` that main.go sets:
the deploying account (`From`, set by `NewKeyedTransactorWithChainID`
from the key's derived address), `Nonce`, `Value`, the signer's chain id,
`GasPrice`, and `GasLimit`. -/
structure TransactOpts where
  fromAddress : ℕ
  nonce : ℤ
  value : ℤ
  chainID : ℤ
  gasPrice : ℤ
  gasLimit : ℕ
  deriving DecidableEq

/-- Model of `createTransactor` (main.go lines 96-141).  `addrOf` abstracts the
address derivation `crypto.PubkeyToAddress(privateKey.Public())`, which
is pure elliptic-curve arithmetic and hashing inside go-ethereum; it is a
function of the parsed key scalar only.  The steps, in source order:
parse the key after trimming the `0x` marker (line 97), fetch the pending
nonce (line 109), fetch the chain id (line 114), build the keyed
transactor (line 119, sets `From`), set `Nonce` through `int64` (line
124) and `Value := 0` (line 125), determine the gas price: the
caller-supplied gwei value converted to wei if it is positive, otherwise
the network suggestion (lines 127-136), and set `GasLimit` from the
caller-supplied flag (line 138).  Each failing step aborts with an error
(`none`). -/
def createTransactor (addrOf : ℕ → ℕ) (gasPriceGwei : ℚ) (gasLimitFlag : ℕ)
    (net : NetCtx) (privateKeyHex : String) : Option TransactOpts :=
  match hexToECDSA (trimHexMarker privateKeyHex) with
  | none => none
  | some d =>
    match net.pendingNonce with
    | none => none
    | some nonce =>
      match net.chainID with
      | none => none
      | some chainID =>
        match
          (if 0 < gasPriceGwei then some (gweiToWei gasPriceGwei)
           else net.suggestedGasPrice) with
        | none => none
        | some gasPrice =>
          some { fromAddress := addrOf d
                 nonce := int64ofUInt64 nonce
                 value := 0
                 chainID := chainID
                 gasPrice := gasPrice
                 gasLimit := gasLimitFlag }

/-! ## Receipts, events, and the result report (main.go lines 65-93) -/

/-- The receipt fields main.go reads: `Status` (a `uint64`, `1` means
successful execution) and `GasUsed`. -/
structure Receipt where
  status : ℕ
  gasUsed : ℕ
  deriving DecidableEq

/-- Observable external actions of the program.  `promptStdin` is the
interactive secret prompt (terminal input, not network); every other
event is a network interaction. -/
inductive Event
  | promptStdin
  | dial
  | fetchNonce
  | fetchChainID
  | suggestGasPrice
  | broadcast
  | pollReceipt
  | callName
  | callSymbol
  | callDecimals
  deriving DecidableEq

/-- Events that touch the network endpoint. -/
def isNetworkEvent : Event → Bool
  | Event.promptStdin => false
  | _ => true

/-- Result interpretation (main.go lines 75-93).  If `receipt.Status == 1`
the program reports success, prints the gas used, and makes the three
verification calls `Name`, `Symbol`, `Decimals`; each call's error is
checked individually and a failing call merely skips its print line.
Otherwise the program reports failure and makes no verification call.
Returns (verification calls issued, success reported, lines printed).
The `Option` arguments are the network's answers to the three calls
(`none` models the call returning an error). -/
def reportResult (receipt : Receipt) (nameRes symbolRes : Option String)
    (decimalsRes : Option ℕ) : List Event × Bool × List String :=
  if receipt.status = 1 then
    ([Event.callName, Event.callSymbol, Event.callDecimals], true,
      ["Deployment successful!", "Gas used: " ++ toString receipt.gasUsed] ++
        (match nameRes with | some n => ["Token name: " ++ n] | none => []) ++
        (match symbolRes with | some s => ["Token symbol: " ++ s] | none => []) ++
        (match decimalsRes with | some d => ["Token decimals: " ++ toString d] | none => []))
  else
    ([], false, ["Deployment failed! Check the transaction on a block explorer."])

/-! ## Confirmation watching (`bind.WaitMined`, called at main.go line 70) -/

/-- Terminal outcomes of `bind.WaitMined`: a receipt was obtained, or the
context was cancelled (`ctx.Done()`, in which case `ctx.Err()` is
returned). -/
inductive WaitResult
  | mined (r : Receipt)
  | ctxCancelled
  deriving DecidableEq

/-- Model of go-ethereum `bind.WaitMined`, the loop main.go line 70 runs:
each iteration queries `TransactionReceipt`; if a receipt is returned the
loop ends with it; otherwise (not-found and query errors alike) it checks
`ctx.Done()` and, if the context is not done, sleeps for the ticker and
retries.  `receiptAt t` is the network's answer at poll `t`; `ctxDone t`
is whether the context is done after poll `t`.  `fuel` bounds how many
polls we observe: the result is `none` when the loop is still running
after `fuel` polls.  The first component lists the polls issued. -/
def waitMined (receiptAt : ℕ → Option Receipt) (ctxDone : ℕ → Bool) :
    ℕ → ℕ → List Event × Option WaitResult
  | 0, _ => ([], none)
  | Nat.succ fuel, t =>
    match receiptAt t with
    | some r => ([Event.pollReceipt], some (WaitResult.mined r))
    | none =>
      if ctxDone t then ([Event.pollReceipt], some WaitResult.ctxCancelled)
      else
        let w := waitMined receiptAt ctxDone fuel (t + 1)
        (Event.pollReceipt :: w.1, w.2)

/-- The context main.go passes to `bind.WaitMined` is
`context.Background()` (line 70): it has no deadline and is never
cancelled, so its done-channel never fires. -/
def backgroundCtxDone : ℕ → Bool := fun _ => false

/-! ## The main pipeline (`main`, main.go lines 30-94) -/

/-- The package-level flag values (main.go lines 19-28), modelled as an
explicit configuration record.  `tokenDecimals` is a Go `uint`; the float
`gasPriceGwei` flag is modelled by its exact rational value. -/
structure Config where
  rpcURL : String
  privateKey : String
  tokenName : String
  tokenSymbol : String
  tokenDecimals : ℕ
  totalSupply : String
  gasLimitFlag : ℕ
  gasPriceGwei : ℚ

/-- The whole network's behavior as seen by one run of `main`: whether
`ethclient.Dial` succeeds, the address derivation, the transactor-time
responses, whether `DeployERC20Token` broadcasts successfully, the
receipt polls, and the three verification-call answers. -/
structure NetOracle where
  dialOk : Bool
  addrOf : ℕ → ℕ
  chain : NetCtx
  deployOk : Bool
  receiptAt : ℕ → Option Receipt
  nameRes : Option String
  symbolRes : Option String
  decimalsRes : Option ℕ

/-- How one run of `main` ends.  The `fatal*` outcomes are the
`log.Fatalf` exits in source order; `stillWaiting` means the receipt
polling loop was still running when observation stopped. -/
inductive Outcome
  | fatalConfig
  | fatalDial
  | fatalTransactor
  | fatalSupply
  | fatalDeploy
  | fatalWait
  | stillWaiting
  | reportedSuccess
  | reportedFailure
  deriving DecidableEq

/-- Model of Go `unicode.IsSpace`, the predicate `strings.TrimSpace`
trims by: the Unicode White_Space code points — `'\t'`, `'\n'`, `'\v'`
(U+000B), `'\f'` (U+000C), `'\r'`, `' '`, U+0085, U+00A0, U+1680,
U+2000 through U+200A, U+2028, U+2029, U+202F, U+205F and U+3000. -/
def goIsSpace (c : Char) : Bool :=
  (9 ≤ c.toNat && c.toNat ≤ 13) || c.toNat = 32 ||
    c.toNat = 0x85 || c.toNat = 0xA0 || c.toNat = 0x1680 ||
    (0x2000 ≤ c.toNat && c.toNat ≤ 0x200A) ||
    c.toNat = 0x2028 || c.toNat = 0x2029 || c.toNat = 0x202F ||
    c.toNat = 0x205F || c.toNat = 0x3000

/-- Model of Go `strings.TrimSpace` (used by `promptForPrivateKey` at
main.go line 161): removes every leading and trailing `unicode.IsSpace`
character. -/
def goTrimSpace (s : String) : String :=
  ⟨((s.data.dropWhile goIsSpace).reverse.dropWhile goIsSpace).reverse⟩

/-- The flag validation at main.go line 33:
`*rpcURL == "" || (*privateKey == "" && !promptForPrivateKey()) || *tokenName == "" || *tokenSymbol == "" || *totalSupply == ""`,
evaluated left to right with short-circuiting.  When the key flag is
empty, `promptForPrivateKey` (lines 154-167) performs one blocking stdin
read, trims surrounding whitespace with `strings.TrimSpace` (modelled
faithfully by `goTrimSpace`), and on a nonempty result stores it as the key;
an empty result or a read error is fatal before any network activity
(`promptInput = none` models the read failing).  Returns (validation
failed, effective private key, events so far). -/
def validateConfig (cfg : Config) (promptInput : Option String) :
    Bool × String × List Event :=
  if cfg.rpcURL = "" then (true, cfg.privateKey, [])
  else if cfg.privateKey = "" then
    match promptInput with
    | none => (true, cfg.privateKey, [Event.promptStdin])
    | some line =>
      let key := goTrimSpace line
      if key = "" then (true, cfg.privateKey, [Event.promptStdin])
      else if cfg.tokenName = "" ∨ cfg.tokenSymbol = "" ∨ cfg.totalSupply = "" then
        (true, key, [Event.promptStdin])
      else (false, key, [Event.promptStdin])
  else if cfg.tokenName = "" ∨ cfg.tokenSymbol = "" ∨ cfg.totalSupply = "" then
    (true, cfg.privateKey, [])
  else (false, cfg.privateKey, [])

/-- The network queries `createTransactor` issues, in source order:
`PendingNonceAt` (only reached if the key parsed), `ChainID` (only if
the nonce fetch succeeded), and `SuggestGasPrice` (only if the chain id
fetch succeeded and no positive gwei price was supplied). -/
def transactorEvents (gasPriceGwei : ℚ) (net : NetCtx) (key : String) : List Event :=
  match hexToECDSA (trimHexMarker key) with
  | none => []
  | some _ =>
    Event.fetchNonce ::
      match net.pendingNonce with
      | none => []
      | some _ =>
        Event.fetchChainID ::
          match net.chainID with
          | none => []
          | some _ => if 0 < gasPriceGwei then [] else [Event.suggestGasPrice]

/-- Model of `main` (main.go lines 30-94) as a function from the configuration,
the prompt input, and the network oracle to the event trace and the
outcome.  Source order: flag validation (line 33), `ethclient.Dial`
(line 37), `createTransactor` (line 43), `parseSupply` with
`uint8(*tokenDecimals)` (line 48), `DeployERC20Token` (line 53),
`bind.WaitMined` with `context.Background()` (line 70), and receipt
interpretation with verification calls (lines 75-93). -/
def mainRun (cfg : Config) (promptInput : Option String) (net : NetOracle)
    (fuel : ℕ) : List Event × Outcome :=
  let v := validateConfig cfg promptInput
  if v.1 then (v.2.2, Outcome.fatalConfig)
  else
    let evs := v.2.2 ++ [Event.dial]
    if net.dialOk = false then (evs, Outcome.fatalDial)
    else
      let evs := evs ++ transactorEvents cfg.gasPriceGwei net.chain v.2.1
      match createTransactor net.addrOf cfg.gasPriceGwei cfg.gasLimitFlag net.chain v.2.1 with
      | none => (evs, Outcome.fatalTransactor)
      | some _auth =>
        match parseSupply cfg.totalSupply (cfg.tokenDecimals % 256) with
        | none => (evs, Outcome.fatalSupply)
        | some _supply =>
          let evs := evs ++ [Event.broadcast]
          if net.deployOk = false then (evs, Outcome.fatalDeploy)
          else
            let w := waitMined net.receiptAt backgroundCtxDone fuel 0
            let evs := evs ++ w.1
            match w.2 with
            | none => (evs, Outcome.stillWaiting)
            | some WaitResult.ctxCancelled => (evs, Outcome.fatalWait)
            | some (WaitResult.mined r) =>
              let rep := reportResult r net.nameRes net.symbolRes net.decimalsRes
              (evs ++ rep.1,
                if rep.2.1 then Outcome.reportedSuccess else Outcome.reportedFailure)

/-- The signing secret is absent: the key flag is empty and the
interactive prompt does not produce a nonempty key either. -/
def secretAbsent (cfg : Config) (promptInput : Option String) : Bool :=
  (cfg.privateKey == "") &&
    (match promptInput with
     | none => true
     | some line => goTrimSpace line == "")

/-- One of the mandatory invocation parameters is absent. -/
def missingMandatory (cfg : Config) (promptInput : Option String) : Bool :=
  (cfg.rpcURL == "") || secretAbsent cfg promptInput ||
    (cfg.tokenName == "") || (cfg.tokenSymbol == "") || (cfg.totalSupply == "")

/-- A concrete well-formed private key (the scalar 1) used to exercise
the transactor on concrete inputs. -/
def k64 : String := "0000000000000000000000000000000000000000000000000000000000000001"

/-- The shape of strings `big.Int.SetString(s, 10)` accepts: an optional
single leading sign followed by one or more decimal digits. -/
def isWellFormedInt10 (s : String) : Bool :=
  match s.data with
  | [] => false
  | c :: rest =>
    if c = '+' then decide (rest ≠ [] ∧ rest.all Char.isDigit)
    else if c = '-' then decide (rest ≠ [] ∧ rest.all Char.isDigit)
    else (c :: rest).all Char.isDigit

/-! ## Helper lemmas -/

theorem trimHexMarker_append (k : String) : trimHexMarker ("0x" ++ k) = k := by
  simp [trimHexMarker, hasHexMarker, String.data_append]

theorem trimHexMarker_eq_self (k : String) (h : hasHexMarker k = false) :
    trimHexMarker k = k := by
  simp [trimHexMarker, h]

theorem createTransactor_fields_of_some (addrOf : ℕ → ℕ) (g : ℚ) (gl : ℕ)
    (net : NetCtx) (k : String) (opts : TransactOpts)
    (h : createTransactor addrOf g gl net k = some opts) :
    ∃ d nonce chainID gasPrice,
      hexToECDSA (trimHexMarker k) = some d ∧
      net.pendingNonce = some nonce ∧
      net.chainID = some chainID ∧
      (if 0 < g then some (gweiToWei g) else net.suggestedGasPrice) = some gasPrice ∧
      opts = { fromAddress := addrOf d, nonce := int64ofUInt64 nonce, value := 0,
               chainID := chainID, gasPrice := gasPrice, gasLimit := gl } := by
  cases hd : hexToECDSA (trimHexMarker k) with
  | none => simp [createTransactor, hd] at h
  | some d =>
  cases hn : net.pendingNonce with
  | none => simp [createTransactor, hd, hn] at h
  | some nonce =>
  cases hc : net.chainID with
  | none => simp [createTransactor, hd, hn, hc] at h
  | some chainID =>
  by_cases hg : 0 < g
  · simp only [createTransactor, hd, hn, hc, hg, if_true, Option.some.injEq] at h
    exact ⟨d, nonce, chainID, gweiToWei g, rfl, rfl, rfl, by simp [hg], h.symm⟩
  · cases hs : net.suggestedGasPrice with
    | none => simp [createTransactor, hd, hn, hc, hg, hs] at h
    | some gp =>
      simp only [createTransactor, hd, hn, hc, hg, if_false, hs, Option.some.injEq] at h
      exact ⟨d, nonce, chainID, gp, rfl, rfl, rfl, by simp [hg, hs], h.symm⟩

/-! ## Claims -/

/-- C1: for every non-negative decimal integer string `a` and every
decimals value `d` in `[0, 255]`, `parseSupply a d` returns exactly
`a * 10^d`, computed with arbitrary-precision integer arithmetic; in
particular `parseSupply "1000000000000000000" 18 = 10^36` and
`parseSupply "0" 18 = 0`. -/
theorem parseSupply_exact_scaling :
    (∀ (a : String) (d : ℕ), a.data ≠ [] → a.data.all Char.isDigit = true → d ≤ 255 →
      parseSupply a d = some ((decValue a : ℤ) * 10 ^ d)) ∧
    parseSupply "1000000000000000000" 18 = some (10 ^ 36) ∧
    parseSupply "0" 18 = some 0 := by
  refine ⟨?_, by decide, by decide⟩
  intro a d hne hdig _
  unfold parseSupply setString10 decValue
  cases hd : a.data with
  | nil => exact absurd hd hne
  | cons c rest =>
    rw [hd] at hdig
    have hc : c.isDigit = true :=
      List.all_eq_true.mp hdig c (List.mem_cons_self _ _)
    have hplus : ¬ c = '+' := by rintro rfl; exact absurd hc (by decide)
    have hminus : ¬ c = '-' := by rintro rfl; exact absurd hc (by decide)
    simp [hplus, hminus, hdig]

/-- C1 witness: the general scaling law evaluated at `a = "12"`,
`d = 3`. -/
theorem parseSupply_exact_scaling_witness :
    parseSupply "12" 3 = some ((decValue "12" : ℤ) * 10 ^ 3) :=
  parseSupply_exact_scaling.1 "12" 3 (by decide) (by decide) (by decide)

/-- C2 counterexample: `"-1"` contains the non-digit character `'-'`,
yet `parseSupply "-1" 18` succeeds (with `-(10^18)`) instead of
returning an error, because `big.Int.SetString` accepts a leading
sign. -/
theorem parseSupply_accepts_signed_input :
    parseSupply "-1" 18 = some (-(10 ^ 18)) ∧
    ¬ parseSupply "-1" 18 = none ∧
    '-' ∈ "-1".data ∧ ('-').isDigit = false := by
  exact ⟨by decide, by decide, by decide, by decide⟩

/-- C2 amended: `parseSupply` returns an error exactly for the strings
that are not an optional single leading `+` or `-` sign followed by one
or more decimal digits — so it rejects the empty string and any string
with a non-digit anywhere other than a leading sign, but it does accept
signed integers; in particular `parseSupply "abc" 18` and
`parseSupply "" 18` fail. -/
theorem parseSupply_error_characterization :
    (∀ (s : String) (d : ℕ),
      parseSupply s d = none ↔ isWellFormedInt10 s = false) ∧
    parseSupply "abc" 18 = none ∧ parseSupply "" 18 = none := by
  refine ⟨?_, by decide, by decide⟩
  intro s d
  cases hsd : s.data with
  | nil => simp [parseSupply, setString10, isWellFormedInt10, hsd]
  | cons c rest =>
    simp only [parseSupply, setString10, isWellFormedInt10, hsd]
    split_ifs <;> simp_all

/-- C2 witness: the characterization applied at the concrete malformed
input `"abc"`. -/
theorem parseSupply_error_characterization_witness :
    parseSupply "abc" 3 = none :=
  (parseSupply_error_characterization.1 "abc" 3).mpr (by decide)

/-- C3: the claim says receipt polling is bounded by a deadline and ends
in a timeout state; the code instead calls `bind.WaitMined` with
`context.Background()`, which has no deadline and is never cancelled, so
when the network never returns a receipt the loop keeps polling at every
step and never terminates — after any number `fuel` of polls it has
produced `fuel` receipt queries and no result. -/
theorem waitMined_background_never_terminates :
    ∀ (fuel t : ℕ),
      (waitMined (fun _ => none) backgroundCtxDone fuel t).2 = none ∧
      (waitMined (fun _ => none) backgroundCtxDone fuel t).1.length = fuel := by
  intro fuel
  induction fuel with
  | zero => intro t; exact ⟨rfl, rfl⟩
  | succ n ih =>
    intro t
    have h := ih (t + 1)
    simp [waitMined, backgroundCtxDone, h.1, h.2]

theorem validateConfig_events_filter (cfg : Config) (p : Option String) :
    ((validateConfig cfg p).2.2).filter isNetworkEvent = [] := by
  unfold validateConfig
  cases p with
  | none =>
    by_cases h1 : cfg.rpcURL = "" <;> by_cases h2 : cfg.privateKey = "" <;>
      by_cases h3 : cfg.tokenName = "" ∨ cfg.tokenSymbol = "" ∨ cfg.totalSupply = "" <;>
      simp [h1, h2, h3, isNetworkEvent]
  | some line =>
    by_cases h1 : cfg.rpcURL = "" <;> by_cases h2 : cfg.privateKey = "" <;>
      by_cases h4 : goTrimSpace line = "" <;>
      by_cases h3 : cfg.tokenName = "" ∨ cfg.tokenSymbol = "" ∨ cfg.totalSupply = "" <;>
      simp [h1, h2, h3, h4, isNetworkEvent]

theorem validateConfig_fails (cfg : Config) (p : Option String)
    (h : missingMandatory cfg p = true) : (validateConfig cfg p).1 = true := by
  unfold validateConfig
  unfold missingMandatory secretAbsent at h
  cases p with
  | none =>
    by_cases h1 : cfg.rpcURL = "" <;> by_cases h2 : cfg.privateKey = "" <;>
      by_cases h3 : cfg.tokenName = "" ∨ cfg.tokenSymbol = "" ∨ cfg.totalSupply = "" <;>
      simp_all [not_or]
  | some line =>
    by_cases h1 : cfg.rpcURL = "" <;> by_cases h2 : cfg.privateKey = "" <;>
      by_cases h4 : goTrimSpace line = "" <;>
      by_cases h3 : cfg.tokenName = "" ∨ cfg.tokenSymbol = "" ∨ cfg.totalSupply = "" <;>
      simp_all [not_or]

/-- C7: whenever any mandatory parameter (endpoint URL, signing secret —
including the interactive fallback producing nothing — token name, token
symbol, or supply) is absent, `main` ends in the fatal configuration
outcome and its event trace contains no network event: no dial, no
query, no broadcast, no poll, no verification call. -/
theorem validation_blocks_network :
    ∀ (cfg : Config) (promptInput : Option String) (net : NetOracle) (fuel : ℕ),
      missingMandatory cfg promptInput = true →
      (mainRun cfg promptInput net fuel).2 = Outcome.fatalConfig ∧
      ((mainRun cfg promptInput net fuel).1.filter isNetworkEvent) = [] := by
  intro cfg p net fuel h
  have h1 := validateConfig_fails cfg p h
  have h2 := validateConfig_events_filter cfg p
  unfold mainRun
  simp [h1, h2]

/-- C7 witness: a run with an empty key flag whose interactive prompt
yields only a vertical tab (a character Go's `strings.TrimSpace` trims
away, so the secret is judged absent) is fatal with an empty
network-event trace, all other parameters being present. -/
theorem validation_blocks_network_witness :
    (mainRun (Config.mk "http://localhost:8545" "" "Token" "TOK" 18 "1000" 3000000 0)
        (some "\u000B")
        (NetOracle.mk true (fun d => d) (NetCtx.mk (some 0) (some 1) (some 2)) true
          (fun _ => none) none none none) 0).2 = Outcome.fatalConfig ∧
    ((mainRun (Config.mk "http://localhost:8545" "" "Token" "TOK" 18 "1000" 3000000 0)
        (some "\u000B")
        (NetOracle.mk true (fun d => d) (NetCtx.mk (some 0) (some 1) (some 2)) true
          (fun _ => none) none none none) 0).1.filter isNetworkEvent) = [] :=
  validation_blocks_network
    (Config.mk "http://localhost:8545" "" "Token" "TOK" 18 "1000" 3000000 0)
    (some "\u000B")
    (NetOracle.mk true (fun d => d) (NetCtx.mk (some 0) (some 1) (some 2)) true
      (fun _ => none) none none none) 0 (by decide)

/-- C4 counterexample: with a caller-supplied gas limit of `0` (and a
gas price of 5 gwei), `createTransactor` succeeds and the resulting
authorization carries `gasLimit = 0`, violating the claimed invariant
`gasLimit > 0`; the code performs no positivity validation on either gas
field. -/
theorem createTransactor_accepts_zero_gas_limit :
    (createTransactor (fun d => d) 5 0 ⟨some 0, some 1, none⟩ k64).map
        TransactOpts.gasLimit = some 0 := by decide

/-- C4 amended: whenever `createTransactor` succeeds, the authorization
satisfies `gasPrice > 0` and `gasLimit > 0` provided the caller-supplied
gas limit is positive and the determined gas price is positive (the
truncated wei conversion of a caller-supplied price, or the network
suggestion otherwise); the code itself never validates either bound. -/
theorem createTransactor_gas_positivity :
    ∀ (addrOf : ℕ → ℕ) (g : ℚ) (gl : ℕ) (net : NetCtx) (k : String)
      (opts : TransactOpts),
      createTransactor addrOf g gl net k = some opts →
      0 < gl →
      (0 < g → 0 < gweiToWei g) →
      (∀ sp, ¬ 0 < g → net.suggestedGasPrice = some sp → 0 < sp) →
      0 < opts.gasPrice ∧ 0 < opts.gasLimit := by
  intro addrOf g gl net k opts h hgl hcaller hsuggest
  obtain ⟨d, nonce, cid, gp, hd, hn, hc, hgp, hopts⟩ :=
    createTransactor_fields_of_some addrOf g gl net k opts h
  subst hopts
  by_cases hg : 0 < g
  · rw [if_pos hg, Option.some.injEq] at hgp
    exact ⟨hgp ▸ hcaller hg, hgl⟩
  · rw [if_neg hg] at hgp
    exact ⟨hsuggest gp hg hgp, hgl⟩

/-- C4 witness: the amended invariant at the default gas limit 3000000
and a 5 gwei caller price. -/
theorem createTransactor_gas_positivity_witness :
    0 < (TransactOpts.mk 1 0 0 1 5000000000 3000000).gasPrice ∧
    0 < (TransactOpts.mk 1 0 0 1 5000000000 3000000).gasLimit :=
  createTransactor_gas_positivity (fun d => d) 5 3000000 ⟨some 0, some 1, none⟩ k64
    (TransactOpts.mk 1 0 0 1 5000000000 3000000) (by decide) (by decide)
    (fun _ => by decide) (fun _ hneg _ => absurd (by decide : (0 : ℚ) < 5) hneg)

/-- C5: a caller-supplied gas price of 5 (gwei) is converted to exactly
5000000000 wei, and every successfully created authorization built with
a caller price of 5 carries that converted value. -/
theorem gasPrice_five_gwei_conversion :
    gweiToWei 5 = 5000000000 ∧
    ∀ (addrOf : ℕ → ℕ) (gl : ℕ) (net : NetCtx) (k : String) (opts : TransactOpts),
      createTransactor addrOf 5 gl net k = some opts →
      opts.gasPrice = 5000000000 := by
  refine ⟨by decide, ?_⟩
  intro addrOf gl net k opts h
  obtain ⟨d, nonce, cid, gp, hd, hn, hc, hgp, hopts⟩ :=
    createTransactor_fields_of_some addrOf 5 gl net k opts h
  subst hopts
  rw [if_pos (by decide : (0 : ℚ) < 5), Option.some.injEq] at hgp
  exact hgp ▸ (by decide : gweiToWei 5 = 5000000000)

/-- C5 witness: the conversion law applied to a concrete successful
transactor construction. -/
theorem gasPrice_five_gwei_conversion_witness :
    (TransactOpts.mk 1 0 0 1 5000000000 3000000).gasPrice = 5000000000 :=
  gasPrice_five_gwei_conversion.2 (fun d => d) 3000000 ⟨some 0, some 1, none⟩ k64
    (TransactOpts.mk 1 0 0 1 5000000000 3000000) (by decide)

/-- C6: for every mined receipt with success status (`Status == 1`) the
program reports success and attempts exactly the three verification
calls name, symbol, decimals, and the success determination does not
depend on the three calls' individual results; for every receipt with
any other status it reports failure and issues zero verification
calls. -/
theorem reportResult_verification_calls :
    ∀ (r : Receipt) (n s : Option String) (d : Option ℕ),
      (r.status = 1 →
        (reportResult r n s d).1 =
            [Event.callName, Event.callSymbol, Event.callDecimals] ∧
        (reportResult r n s d).1.length = 3 ∧
        (reportResult r n s d).2.1 = true) ∧
      (r.status ≠ 1 →
        (reportResult r n s d).1 = [] ∧ (reportResult r n s d).2.1 = false) ∧
      (∀ (n' s' : Option String) (d' : Option ℕ),
        (reportResult r n s d).2.1 = (reportResult r n' s' d').2.1) := by
  intro r n s d
  by_cases h : r.status = 1 <;> simp [reportResult, h]

/-- C6 witness: a successful receipt with every verification call
failing still reports success with exactly three calls attempted. -/
theorem reportResult_verification_calls_witness :
    (reportResult ⟨1, 21000⟩ none none none).1 =
        [Event.callName, Event.callSymbol, Event.callDecimals] ∧
    (reportResult ⟨1, 21000⟩ none none none).1.length = 3 ∧
    (reportResult ⟨1, 21000⟩ none none none).2.1 = true :=
  (reportResult_verification_calls ⟨1, 21000⟩ none none none).1 rfl

/-- C8 counterexample: with a fetched pending nonce of `2^63` the
authorization is created successfully but stores `-(2^63)` as its nonce
(the `int64` conversion wraps), not the fetched sequence number. -/
theorem createTransactor_nonce_wrap_cx :
    (createTransactor (fun d => d) 5 3000000 ⟨some (2 ^ 63), some 1, none⟩ k64).map
        TransactOpts.nonce = some (-(2 ^ 63)) ∧
    ¬ (createTransactor (fun d => d) 5 3000000 ⟨some (2 ^ 63), some 1, none⟩ k64).map
        TransactOpts.nonce = some ((2 ^ 63 : ℕ) : ℤ) := by
  exact ⟨by decide, by decide⟩

/-- C8 amended: every successfully created authorization carries the
account derived from the credential, the fetched pending sequence number
converted through a signed 64-bit integer as its nonce (equal to the
fetched value whenever it is below `2^63`), a zero value transfer, the
caller-supplied gas limit, and the determined gas price (the converted
caller-supplied price when positive, the network suggestion
otherwise). -/
theorem createTransactor_authorization_fields :
    ∀ (addrOf : ℕ → ℕ) (g : ℚ) (gl : ℕ) (net : NetCtx) (k : String)
      (opts : TransactOpts) (d nonce : ℕ),
      hexToECDSA (trimHexMarker k) = some d →
      net.pendingNonce = some nonce →
      createTransactor addrOf g gl net k = some opts →
      opts.fromAddress = addrOf d ∧
      opts.nonce = int64ofUInt64 nonce ∧
      (nonce < 2 ^ 63 → opts.nonce = (nonce : ℤ)) ∧
      opts.value = 0 ∧
      opts.gasLimit = gl ∧
      (0 < g → opts.gasPrice = gweiToWei g) ∧
      (¬ 0 < g → net.suggestedGasPrice = some opts.gasPrice) := by
  intro addrOf g gl net k opts d nonce hkey hnonce h
  obtain ⟨d', nonce', cid, gp, hd, hn, hc, hgp, hopts⟩ :=
    createTransactor_fields_of_some addrOf g gl net k opts h
  obtain rfl : d = d' := Option.some.inj (hkey.symm.trans hd)
  obtain rfl : nonce = nonce' := Option.some.inj (hnonce.symm.trans hn)
  subst hopts
  refine ⟨rfl, rfl, ?_, rfl, rfl, ?_, ?_⟩
  · intro hlt
    show int64ofUInt64 nonce = (nonce : ℤ)
    unfold int64ofUInt64
    rw [if_pos hlt]
  · intro hg
    rw [if_pos hg, Option.some.injEq] at hgp
    exact hgp.symm
  · intro hg
    rw [if_neg hg] at hgp
    exact hgp

/-- C8 witness: the field description at a concrete small nonce. -/
theorem createTransactor_authorization_fields_witness :
    (TransactOpts.mk 1 7 0 1 5000000000 3000000).fromAddress = (fun d => d) 1 ∧
    (TransactOpts.mk 1 7 0 1 5000000000 3000000).nonce = int64ofUInt64 7 ∧
    ((7 : ℕ) < 2 ^ 63 →
      (TransactOpts.mk 1 7 0 1 5000000000 3000000).nonce = ((7 : ℕ) : ℤ)) ∧
    (TransactOpts.mk 1 7 0 1 5000000000 3000000).value = 0 ∧
    (TransactOpts.mk 1 7 0 1 5000000000 3000000).gasLimit = 3000000 ∧
    ((0 : ℚ) < 5 →
      (TransactOpts.mk 1 7 0 1 5000000000 3000000).gasPrice = gweiToWei 5) ∧
    (¬ (0 : ℚ) < 5 →
      (NetCtx.mk (some 7) (some 1) none).suggestedGasPrice =
        some (TransactOpts.mk 1 7 0 1 5000000000 3000000).gasPrice) :=
  createTransactor_authorization_fields (fun d => d) 5 3000000 ⟨some 7, some 1, none⟩
    k64 (TransactOpts.mk 1 7 0 1 5000000000 3000000) 1 7 (by decide) rfl (by decide)

/-- C9 counterexample: for the key string `k = "0x" ++ k64` (a key that
itself begins with the marker), `createTransactor` succeeds on `k` but
fails on `"0x" ++ k`, because `strings.TrimPrefix` strips only one
occurrence of the marker — so prefixing is not behavior-preserving for
every key string. -/
theorem createTransactor_double_marker_cx :
    (createTransactor (fun d => d) 5 3000000 ⟨some 0, some 1, none⟩
        ("0x" ++ k64)).isSome = true ∧
    (createTransactor (fun d => d) 5 3000000 ⟨some 0, some 1, none⟩
        ("0x" ++ ("0x" ++ k64))).isSome = false := by
  exact ⟨by decide, by decide⟩

/-- C9 amended: for every secret key string `k` that does not itself
begin with the `0x` marker, `createTransactor` applied to `"0x" ++ k`
behaves identically to `createTransactor` applied to `k` (the same
result in full, hence the same derived address and the same
success/failure outcome). -/
theorem createTransactor_marker_normalization :
    ∀ (addrOf : ℕ → ℕ) (g : ℚ) (gl : ℕ) (net : NetCtx) (k : String),
      hasHexMarker k = false →
      createTransactor addrOf g gl net ("0x" ++ k) =
        createTransactor addrOf g gl net k := by
  intro addrOf g gl net k hk
  unfold createTransactor
  rw [trimHexMarker_append, trimHexMarker_eq_self k hk]

/-- C9 witness: marker normalization at the concrete key `k64`. -/
theorem createTransactor_marker_normalization_witness :
    createTransactor (fun d => d) 5 3000000 ⟨some 0, some 1, none⟩ ("0x" ++ k64) =
      createTransactor (fun d => d) 5 3000000 ⟨some 0, some 1, none⟩ k64 :=
  createTransactor_marker_normalization (fun d => d) 5 3000000 ⟨some 0, some 1, none⟩
    k64 (by decide)

/-- C10: the fetched pending sequence number (a `uint64`) passes through
Go's `int64` conversion before being stored as the nonce, so for every
sequence number in `[2^63, 2^64)` the stored nonce equals the sequence
number minus `2^64` — a negative value, different from the fetched
one. -/
theorem pending_nonce_int64_wraparound :
    ∀ (addrOf : ℕ → ℕ) (g : ℚ) (gl : ℕ) (net : NetCtx) (k : String)
      (opts : TransactOpts) (nonce : ℕ),
      net.pendingNonce = some nonce →
      2 ^ 63 ≤ nonce → nonce < 2 ^ 64 →
      createTransactor addrOf g gl net k = some opts →
      opts.nonce = (nonce : ℤ) - 2 ^ 64 ∧ opts.nonce < 0 ∧
        opts.nonce ≠ (nonce : ℤ) := by
  intro addrOf g gl net k opts nonce hnonce hlo hhi h
  obtain ⟨d, nonce', cid, gp, hd, hn, hc, hgp, hopts⟩ :=
    createTransactor_fields_of_some addrOf g gl net k opts h
  obtain rfl : nonce = nonce' := Option.some.inj (hnonce.symm.trans hn)
  subst hopts
  have he : int64ofUInt64 nonce = (nonce : ℤ) - 2 ^ 64 := by
    unfold int64ofUInt64
    rw [if_neg (not_lt.mpr hlo)]
  have hhi' : (nonce : ℤ) < 2 ^ 64 := by exact_mod_cast hhi
  have hp : ((2 : ℤ) ^ 64) = 18446744073709551616 := by norm_num
  refine ⟨he, ?_, ?_⟩
  · show int64ofUInt64 nonce < 0
    rw [he, hp]
    rw [hp] at hhi'
    omega
  · show int64ofUInt64 nonce ≠ (nonce : ℤ)
    rw [he, hp]
    omega

/-- C10 witness: the wraparound at the boundary nonce `2^63`. -/
theorem pending_nonce_int64_wraparound_witness :
    (TransactOpts.mk 1 (-(2 ^ 63)) 0 1 5000000000 3000000).nonce =
        ((2 ^ 63 : ℕ) : ℤ) - 2 ^ 64 ∧
    (TransactOpts.mk 1 (-(2 ^ 63)) 0 1 5000000000 3000000).nonce < 0 ∧
    (TransactOpts.mk 1 (-(2 ^ 63)) 0 1 5000000000 3000000).nonce ≠
        ((2 ^ 63 : ℕ) : ℤ) :=
  pending_nonce_int64_wraparound (fun d => d) 5 3000000 ⟨some (2 ^ 63), some 1, none⟩
    k64 (TransactOpts.mk 1 (-(2 ^ 63)) 0 1 5000000000 3000000) (2 ^ 63) rfl
    (le_refl _) (by norm_num) (by decide)

end Tokken
